import Mathlib

/-!
Verification of the Azure-SQL-MCP tool-dispatch and query-execution layer.

The development shallowly embeds `src/azure_sql_mcp/server.py` and
`src/azure_sql_mcp/connector.py`.  Each tool handler is modelled as a pure
function from a database oracle (describing the outcomes the ODBC driver
would produce) and the incoming argument mapping to the handler's response
payload together with a trace of connection-level events
(acquire / execute / fetch / commit / release).  The `with` statement of the
Python source is modelled by its context-manager bracket: the scope-exit
(release) event is emitted on every path that entered the block.

Argument payloads are restricted to the value shapes declared by the tools'
input schemas (strings and arrays of strings); `dict.get(key, default)` is
modelled by association-list lookup with a default.
-/

namespace AzureSqlMcp

/-- Python `str` whitespace as used by `str.strip()` (ASCII subset). -/
def isPySpace (c : Char) : Bool :=
  c = ' ' || c = '\t' || c = '\n' || c = '\r' || c = '\x0b' || c = '\x0c'

/-- Python `str.strip()`: drop whitespace from both ends. -/
def pyStrip (s : String) : String :=
  String.mk (((s.toList.dropWhile isPySpace).reverse.dropWhile isPySpace).reverse)

/-- Python `str.upper()` (ASCII letters, which is all the classifier looks at). -/
def pyUpper (s : String) : String :=
  String.mk (s.toList.map Char.toUpper)

/-- Python `str.startswith(pre)`, via the character lists. -/
def pyStartswith (s pre : String) : Bool :=
  pre.toList.isPrefixOf s.toList

/-- Scalar values travelling between the driver and the serializer. -/
inductive PyVal where
  | str : String → PyVal
  | int : Int → PyVal
  | none : PyVal
deriving DecidableEq, Repr

/-- Argument values permitted by the declared tool input schemas. -/
inductive Arg where
  | str : String → Arg
  | strList : List String → Arg
deriving DecidableEq, Repr

/-- The `arguments` dict of a tool call (keys unique, as in a Python dict). -/
abbrev Arguments := List (String × Arg)

/-- Python `arguments.get(key, default)` for a string-typed argument. -/
def pyGetStr (args : Arguments) (key : String) (dflt : String) : String :=
  match List.lookup key args with
  | some (Arg.str s) => s
  | _ => dflt

/-- Python `arguments.get(key, default)` for an array-typed argument. -/
def pyGetStrList (args : Arguments) (key : String) (dflt : List String) : List String :=
  match List.lookup key args with
  | some (Arg.strList l) => l
  | _ => dflt

/-- JSON values as produced by `json.dumps` on the data the handlers build. -/
inductive JVal where
  | jstr : String → JVal
  | jint : Int → JVal
  | jnull : JVal
  | jarr : List JVal → JVal
  | jobj : List (String × JVal) → JVal
deriving Repr

/-- Hex digit for JSON control-character escapes. -/
def hexDigit (n : Nat) : String :=
  if n < 10 then String.singleton (Char.ofNat (48 + n))
  else String.singleton (Char.ofNat (87 + n))

/-- JSON escaping of a single character, as Python `json.dumps` does. -/
def jsonEscChar (c : Char) : String :=
  if c = '"' then "\\\""
  else if c = '\\' then "\\\\"
  else if c = '\n' then "\\n"
  else if c = '\t' then "\\t"
  else if c = '\r' then "\\r"
  else if c = '\x08' then "\\b"
  else if c = '\x0c' then "\\f"
  else if c.toNat < 32 then "\\u00" ++ hexDigit (c.toNat / 16) ++ hexDigit (c.toNat % 16)
  else String.singleton c

/-- JSON string literal with escapes. -/
def jsonQuote (s : String) : String :=
  "\"" ++ String.join (s.toList.map jsonEscChar) ++ "\""

/-- Indentation produced by `json.dumps(..., indent=2)` at nesting depth `d`. -/
def jPad (d : Nat) : String :=
  String.mk (List.replicate (2 * d) ' ')

mutual
/-- Python `json.dumps(v, indent=2)` at nesting depth `d`. -/
def jDump (d : Nat) : JVal → String
  | .jstr s => jsonQuote s
  | .jint n => toString n
  | .jnull => "null"
  | .jarr [] => "[]"
  | .jarr (x :: xs) => "[\n" ++ jDumpArr (d + 1) x xs ++ "\n" ++ jPad d ++ "]"
  | .jobj [] => "\x7b\x7d"
  | .jobj (kv :: kvs) => "\x7b\n" ++ jDumpObj (d + 1) kv kvs ++ "\n" ++ jPad d ++ "\x7d"
termination_by v => sizeOf v

/-- Comma-and-newline separated array items, each indented to depth `d`. -/
def jDumpArr (d : Nat) (x : JVal) : List JVal → String
  | [] => jPad d ++ jDump d x
  | y :: ys => jPad d ++ jDump d x ++ ",\n" ++ jDumpArr d y ys
termination_by ys => sizeOf x + sizeOf ys

/-- Comma-and-newline separated object entries, each indented to depth `d`. -/
def jDumpObj (d : Nat) (kv : String × JVal) : List (String × JVal) → String
  | [] => jPad d ++ jsonQuote kv.1 ++ ": " ++ jDump d kv.2
  | kv2 :: kvs => jPad d ++ jsonQuote kv.1 ++ ": " ++ jDump d kv.2 ++ ",\n" ++ jDumpObj d kv2 kvs
termination_by kvs => sizeOf kv + sizeOf kvs
decreasing_by
  all_goals (simp_wf; rcases kv with ⟨k1, k2⟩; simp; omega)
end

/-- Serialization of a scalar; `default=str` never fires for these shapes. -/
def pyValToJ : PyVal → JVal
  | .str s => .jstr s
  | .int n => .jint n
  | .none => .jnull

/-- One `TextContent(type="text", text=...)` block. -/
structure TextContent where
  type : String
  text : String
deriving DecidableEq, Repr

/-- Shorthand for the only content shape the server emits. -/
def textContent (t : String) : TextContent :=
  ⟨"text", t⟩

/-- Connection-level events observable through the driver per call. -/
inductive Event where
  | acquire
  | execute (stmt : String) (params : List PyVal)
  | fetch
  | commit
  | release
deriving DecidableEq, Repr

/-- Oracle describing the configured database's reaction to this call:
outcome of `pyodbc.connect`, of `cursor.execute` on a statement with bind
parameters, the rows `fetchall` returns and the column names of
`cursor.description` after a given statement, and the outcome of
`conn.commit()`. -/
structure DB where
  connect : Except String Unit
  exec : String → List PyVal → Except String Unit
  fetchall : String → Except String (List (List PyVal))
  description : String → List String
  commit : Except String Unit

/-- A handler's result: the response payload and the trace of driver events. -/
abbrev Res := List TextContent × List Event

/-- Python `row[i]`, raising `IndexError` when out of range. -/
def pyIndex (row : List PyVal) (i : Nat) : Except String PyVal :=
  match row.get? i with
  | some v => Except.ok v
  | none => Except.error "list index out of range"

/-- Insert into a Python dict rendered as an ordered association list:
an existing key keeps its position and takes the new value, a new key is
appended. -/
def dictInsert (d : List (String × PyVal)) (k : String) (v : PyVal) :
    List (String × PyVal) :=
  if d.any (fun p => p.1 = k) then d.map (fun p => if p.1 = k then (k, v) else p)
  else d ++ [(k, v)]

/-- Python `dict(zip(columns, row))`: `zip` truncates to the shorter list. -/
def pyDictOfZip (ks : List String) (vs : List PyVal) : List (String × PyVal) :=
  (List.zip ks vs).foldl (fun d kv => dictInsert d kv.1 kv.2) []

/-- The classifier expression of `execute_query`:
`query.strip().upper().startswith("SELECT")`. -/
def isSelectQuery (q : String) : Bool :=
  pyStartswith (pyUpper (pyStrip q)) "SELECT"

/-- The `execute_query` handler (`server.py` lines 142-172). -/
def execute_query (db : DB) (args : Arguments) : Res :=
  let query := pyGetStr args "query" ""
  let parameters := (pyGetStrList args "parameters" []).map PyVal.str
  match db.connect with
  | .error e => ([textContent ("Query execution failed: " ++ e)], [])
  | .ok _ =>
    match db.exec query parameters with
    | .error e =>
      ([textContent ("Query execution failed: " ++ e)],
       [.acquire, .execute query parameters, .release])
    | .ok _ =>
      if isSelectQuery query then
        match db.fetchall query with
        | .error e =>
          ([textContent ("Query execution failed: " ++ e)],
           [.acquire, .execute query parameters, .fetch, .release])
        | .ok results =>
          let columns := db.description query
          let data := results.map (fun row => pyDictOfZip columns row)
          let rendered := data.map (fun d => JVal.jobj (d.map (fun p => (p.1, pyValToJ p.2))))
          ([textContent ("Query executed successfully.\nResults:\n" ++
              jDump 0 (JVal.jarr rendered))],
           [.acquire, .execute query parameters, .fetch, .release])
      else
        match db.commit with
        | .error e =>
          ([textContent ("Query execution failed: " ++ e)],
           [.acquire, .execute query parameters, .release])
        | .ok _ =>
          ([textContent "Query executed successfully."],
           [.acquire, .execute query parameters, .commit, .release])

/-- The fixed catalog statement of `get_tables` (exact triple-quoted text). -/
def getTablesQuery : String :=
  "\n                SELECT TABLE_NAME\n                FROM INFORMATION_SCHEMA.TABLES\n                WHERE TABLE_TYPE = \x27BASE TABLE\x27\n            "

/-- The `get_tables` handler (`server.py` lines 174-191). -/
def get_tables (db : DB) : Res :=
  match db.connect with
  | .error e => ([textContent ("Failed to get tables: " ++ e)], [])
  | .ok _ =>
    match db.exec getTablesQuery [] with
    | .error e =>
      ([textContent ("Failed to get tables: " ++ e)],
       [.acquire, .execute getTablesQuery [], .release])
    | .ok _ =>
      match db.fetchall getTablesQuery with
      | .error e =>
        ([textContent ("Failed to get tables: " ++ e)],
         [.acquire, .execute getTablesQuery [], .fetch, .release])
      | .ok rows =>
        match rows.mapM (fun row => pyIndex row 0) with
        | .error e =>
          ([textContent ("Failed to get tables: " ++ e)],
           [.acquire, .execute getTablesQuery [], .fetch, .release])
        | .ok tables =>
          ([textContent ("Tables in database:\n" ++
              jDump 0 (JVal.jarr (tables.map pyValToJ)))],
           [.acquire, .execute getTablesQuery [], .fetch, .release])

/-- The fixed column-catalog statement of `get_table_schema` (exact text). -/
def getTableSchemaQuery : String :=
  "\n                SELECT COLUMN_NAME, DATA_TYPE, IS_NULLABLE, COLUMN_DEFAULT\n                FROM INFORMATION_SCHEMA.COLUMNS\n                WHERE TABLE_NAME = ?\n                ORDER BY ORDINAL_POSITION\n            "

/-- Building one schema dict from a row: `row[0] .. row[3]` with the fixed
keys, any out-of-range access raising `IndexError`. -/
def schemaRowToObj (row : List PyVal) : Except String (List (String × JVal)) := do
  let c0 ← pyIndex row 0
  let c1 ← pyIndex row 1
  let c2 ← pyIndex row 2
  let c3 ← pyIndex row 3
  pure [("column_name", pyValToJ c0), ("data_type", pyValToJ c1),
        ("is_nullable", pyValToJ c2), ("default_value", pyValToJ c3)]

/-- The `get_table_schema` handler (`server.py` lines 193-221); the single
bind parameter is the table name. -/
def get_table_schema (db : DB) (args : Arguments) : Res :=
  let table_name := pyGetStr args "table_name" ""
  match db.connect with
  | .error e => ([textContent ("Failed to get schema: " ++ e)], [])
  | .ok _ =>
    match db.exec getTableSchemaQuery [PyVal.str table_name] with
    | .error e =>
      ([textContent ("Failed to get schema: " ++ e)],
       [.acquire, .execute getTableSchemaQuery [PyVal.str table_name], .release])
    | .ok _ =>
      match db.fetchall getTableSchemaQuery with
      | .error e =>
        ([textContent ("Failed to get schema: " ++ e)],
         [.acquire, .execute getTableSchemaQuery [PyVal.str table_name], .fetch, .release])
      | .ok rows =>
        match rows.mapM schemaRowToObj with
        | .error e =>
          ([textContent ("Failed to get schema: " ++ e)],
           [.acquire, .execute getTableSchemaQuery [PyVal.str table_name], .fetch, .release])
        | .ok columns =>
          ([textContent ("Schema for table \x27" ++ table_name ++ "\x27:\n" ++
              jDump 0 (JVal.jarr (columns.map JVal.jobj)))],
           [.acquire, .execute getTableSchemaQuery [PyVal.str table_name], .fetch, .release])

/-- The DDL text assembled by `create_table` (`server.py` line 231). -/
def createTableQuery (table_name columns : String) : String :=
  "CREATE TABLE " ++ table_name ++ " (" ++ columns ++ ")"

/-- The `create_table` handler (`server.py` lines 223-240): table name and
column definitions are interpolated into the DDL text, no bind parameters. -/
def create_table (db : DB) (args : Arguments) : Res :=
  let table_name := pyGetStr args "table_name" ""
  let columns := pyGetStr args "columns" ""
  match db.connect with
  | .error e => ([textContent ("Failed to create table: " ++ e)], [])
  | .ok _ =>
    let query := createTableQuery table_name columns
    match db.exec query [] with
    | .error e =>
      ([textContent ("Failed to create table: " ++ e)],
       [.acquire, .execute query [], .release])
    | .ok _ =>
      match db.commit with
      | .error e =>
        ([textContent ("Failed to create table: " ++ e)],
         [.acquire, .execute query [], .release])
      | .ok _ =>
        ([textContent ("Table \x27" ++ table_name ++ "\x27 created successfully.")],
         [.acquire, .execute query [], .commit, .release])

/-- The DML text assembled by `insert_data` (`server.py` lines 251-253):
the column names joined by a comma, and one `?` placeholder per value. -/
def insertQuery (table_name : String) (columns values : List String) : String :=
  "INSERT INTO " ++ table_name ++ " (" ++ String.intercalate ", " columns ++
    ") VALUES (" ++ String.intercalate ", " (values.map (fun _ => "?")) ++ ")"

/-- The `insert_data` handler (`server.py` lines 242-262): column names are
joined into the statement text, one `?` placeholder is produced per supplied
value, and the values are the bind parameters.  No length check is made. -/
def insert_data (db : DB) (args : Arguments) : Res :=
  let table_name := pyGetStr args "table_name" ""
  let columns := pyGetStrList args "columns" []
  let values := pyGetStrList args "values" []
  match db.connect with
  | .error e => ([textContent ("Failed to insert data: " ++ e)], [])
  | .ok _ =>
    let query := insertQuery table_name columns values
    let params := values.map PyVal.str
    match db.exec query params with
    | .error e =>
      ([textContent ("Failed to insert data: " ++ e)],
       [.acquire, .execute query params, .release])
    | .ok _ =>
      match db.commit with
      | .error e =>
        ([textContent ("Failed to insert data: " ++ e)],
         [.acquire, .execute query params, .release])
      | .ok _ =>
        ([textContent ("Data inserted into \x27" ++ table_name ++ "\x27 successfully.")],
         [.acquire, .execute query params, .commit, .release])

/-- Names of the five declared tools, in dispatch order. -/
def toolNames : List String :=
  ["execute_query", "get_tables", "get_table_schema", "create_table", "insert_data"]

/-- The `try` body of `handle_call_tool` (`server.py` lines 124-136): the
name dispatch.  The concrete handlers swallow their own exceptions, so the
body itself never raises; it is still typed fallibly to mirror the `try`. -/
def dispatchTry (db : DB) (name : String) (args : Arguments) : Except String Res :=
  if name = "execute_query" then .ok (execute_query db args)
  else if name = "get_tables" then .ok (get_tables db)
  else if name = "get_table_schema" then .ok (get_table_schema db args)
  else if name = "create_table" then .ok (create_table db args)
  else if name = "insert_data" then .ok (insert_data db args)
  else .ok ([textContent ("Unknown tool: " ++ name)], [])

/-- The `except` branch of `handle_call_tool` (`server.py` lines 137-139). -/
def dispatchExcept (e : String) : Res :=
  ([textContent ("Error: " ++ e)], [])

/-- The `handle_call_tool` entry point (`server.py` lines 118-139); a `None`
arguments payload is replaced by the empty dict. -/
def handle_call_tool (db : DB) (name : String) (args : Option Arguments) : Res :=
  let arguments := args.getD []
  match dispatchTry db name arguments with
  | .ok r => r
  | .error e => dispatchExcept e

/-- Configuration environment: the four `AZURE_SQL_*` variables as
`os.getenv` reports them (`none` = unset). -/
structure Env where
  server : Option String
  database : Option String
  username : Option String
  password : Option String

/-- Python truthiness of an optional string: unset and empty are falsy. -/
def envTruthy : Option String → Bool
  | Option.none => false
  | some s => !(s = "")

/-- The connection string assembled by `setup_connection`
(`connector.py` lines 25-34). -/
def buildConnectionString (server database username password : String) : String :=
  "DRIVER=\x7bODBC Driver 17 for SQL Server\x7d;" ++
  "SERVER=" ++ server ++ ";" ++
  "DATABASE=" ++ database ++ ";" ++
  "UID=" ++ username ++ ";" ++
  "PWD=" ++ password ++ ";" ++
  "Encrypt=yes;TrustServerCertificate=no;Connection Timeout=30;"

/-- `AzureSQLConnector.setup_connection` (`connector.py` lines 13-34):
raises `ValueError` unless all four variables are truthy, otherwise
assembles the connection string. -/
def setup_connection (env : Env) : Except String String :=
  if envTruthy env.server && envTruthy env.database &&
     envTruthy env.username && envTruthy env.password then
    match env.server, env.database, env.username, env.password with
    | some s, some d, some u, some p => .ok (buildConnectionString s d u p)
    | _, _, _, _ => .error "Missing required environment variables for Azure SQL connection"
  else .error "Missing required environment variables for Azure SQL connection"

/-- The connector's only state: the `connection_string` field. -/
structure AzureSQLConnector where
  connection_string : Option String
deriving DecidableEq, Repr

/-- `AzureSQLConnector.__init__` (`connector.py` lines 9-11): sets the field
to `None`, then `setup_connection` either raises (construction fails) or
assigns the assembled string. -/
def connector_init (env : Env) : Except String AzureSQLConnector :=
  match setup_connection env with
  | .error e => .error e
  | .ok cs => .ok ⟨some cs⟩

/-- The configuration guard of `get_connection` (`connector.py` lines 36-39):
`if not self.connection_string` — falsy means `None` or the empty string. -/
def connectionStringMissing (c : AzureSQLConnector) : Bool :=
  match c.connection_string with
  | Option.none => true
  | some s => s = ""

/-- `AzureSQLConnector.get_connection` (`connector.py` lines 36-45), with the
driver's `pyodbc.connect` outcome supplied by the oracle. -/
def get_connection (c : AzureSQLConnector) (connectResult : Except String Unit) :
    Except String Unit :=
  if connectionStringMissing c then .error "Connection string not configured"
  else connectResult

/-- Number of connection acquisitions in a trace. -/
def countAcquire : List Event → Nat
  | [] => 0
  | Event.acquire :: t => countAcquire t + 1
  | _ :: t => countAcquire t

/-- Number of scope-exit releases in a trace. -/
def countRelease : List Event → Nat
  | [] => 0
  | Event.release :: t => countRelease t + 1
  | _ :: t => countRelease t

/-- Whether the final event of the trace is the scope-exit release. -/
def lastIsRelease : List Event → Bool
  | [] => false
  | [Event.release] => true
  | [_] => false
  | _ :: t => lastIsRelease t

/-- The per-tool failure prefix of the response payload. -/
def toolErrorText : String → String
  | "execute_query" => "Query execution failed: "
  | "get_tables" => "Failed to get tables: "
  | "get_table_schema" => "Failed to get schema: "
  | "create_table" => "Failed to create table: "
  | "insert_data" => "Failed to insert data: "
  | _ => ""

/-- A database oracle on which every driver operation succeeds and every
result set is empty (used to instantiate universally quantified theorems). -/
def dbOk : DB :=
  { connect := Except.ok ()
    exec := fun _ _ => Except.ok ()
    fetchall := fun _ => Except.ok []
    description := fun _ => []
    commit := Except.ok () }

/-- An oracle on which the connection handshake is rejected. -/
def dbConnFail : DB :=
  { dbOk with connect := Except.error "Login failed for user" }

/-- An oracle on which statement execution raises a driver error. -/
def dbExecFail : DB :=
  { dbOk with exec := fun _ _ => Except.error "Invalid object name" }

/-- An oracle on which the commit raises a driver error. -/
def dbCommitFail : DB :=
  { dbOk with commit := Except.error "The transaction ended in the trigger" }

/-- A fully populated configuration environment. -/
def envW : Env :=
  { server := some "srv.database.windows.net", database := some "db"
    username := some "user", password := some "pw" }

/-- Abbreviation for the statement text `execute_query` extracts. -/
def argQuery (args : Arguments) : String :=
  pyGetStr args "query" ""

/-- Abbreviation for the bind parameters `execute_query` extracts. -/
def argParams (args : Arguments) : List PyVal :=
  (pyGetStrList args "parameters" []).map PyVal.str

/-- Abbreviation for the table name extracted by the schema/DDL/DML tools. -/
def argTableName (args : Arguments) : String :=
  pyGetStr args "table_name" ""

/-- Abbreviation for the column-definition fragment of `create_table`. -/
def argColumnsStr (args : Arguments) : String :=
  pyGetStr args "columns" ""

/-- Abbreviation for the column-name list of `insert_data`. -/
def argColumnsList (args : Arguments) : List String :=
  pyGetStrList args "columns" []

/-- Abbreviation for the value list of `insert_data`. -/
def argValues (args : Arguments) : List String :=
  pyGetStrList args "values" []

/-- The bracket facts C5 needs of one trace: one acquisition, one release,
acquisition first, release last. -/
def WellBracketed (t : List Event) : Prop :=
  countAcquire t = 1 ∧ countRelease t = 1 ∧
  t.head? = some Event.acquire ∧ lastIsRelease t = true

lemma execute_query_conn_err (db : DB) (args : Arguments) (e : String)
    (hc : db.connect = Except.error e) :
    execute_query db args = ([textContent ("Query execution failed: " ++ e)], []) := by
  simp only [execute_query, argQuery, argParams]
  rw [hc]

lemma execute_query_exec_err (db : DB) (args : Arguments) (e : String)
    (hc : db.connect = Except.ok ())
    (hx : db.exec (argQuery args) (argParams args) = Except.error e) :
    execute_query db args =
      ([textContent ("Query execution failed: " ++ e)],
       [Event.acquire, Event.execute (argQuery args) (argParams args), Event.release]) := by
  simp only [execute_query, argQuery, argParams] at *
  rw [hc, hx]

lemma execute_query_fetch_err (db : DB) (args : Arguments) (e : String)
    (hc : db.connect = Except.ok ())
    (hx : db.exec (argQuery args) (argParams args) = Except.ok ())
    (hs : isSelectQuery (argQuery args) = true)
    (hf : db.fetchall (argQuery args) = Except.error e) :
    execute_query db args =
      ([textContent ("Query execution failed: " ++ e)],
       [Event.acquire, Event.execute (argQuery args) (argParams args),
        Event.fetch, Event.release]) := by
  simp only [execute_query, argQuery, argParams] at *
  rw [hc, hx, hs, hf]
  simp

lemma execute_query_select_ok (db : DB) (args : Arguments) (rows : List (List PyVal))
    (hc : db.connect = Except.ok ())
    (hx : db.exec (argQuery args) (argParams args) = Except.ok ())
    (hs : isSelectQuery (argQuery args) = true)
    (hf : db.fetchall (argQuery args) = Except.ok rows) :
    execute_query db args =
      ([textContent ("Query executed successfully.\nResults:\n" ++
          jDump 0 (JVal.jarr ((rows.map
            (fun row => pyDictOfZip (db.description (argQuery args)) row)).map
            (fun d => JVal.jobj (d.map (fun p => (p.1, pyValToJ p.2)))))))],
       [Event.acquire, Event.execute (argQuery args) (argParams args),
        Event.fetch, Event.release]) := by
  simp only [execute_query, argQuery, argParams] at *
  rw [hc, hx, hs, hf]
  simp

lemma execute_query_commit_err (db : DB) (args : Arguments) (e : String)
    (hc : db.connect = Except.ok ())
    (hx : db.exec (argQuery args) (argParams args) = Except.ok ())
    (hs : isSelectQuery (argQuery args) = false)
    (hm : db.commit = Except.error e) :
    execute_query db args =
      ([textContent ("Query execution failed: " ++ e)],
       [Event.acquire, Event.execute (argQuery args) (argParams args), Event.release]) := by
  simp only [execute_query, argQuery, argParams] at *
  rw [hc, hx, hs, hm]
  simp

lemma execute_query_effect_ok (db : DB) (args : Arguments)
    (hc : db.connect = Except.ok ())
    (hx : db.exec (argQuery args) (argParams args) = Except.ok ())
    (hs : isSelectQuery (argQuery args) = false)
    (hm : db.commit = Except.ok ()) :
    execute_query db args =
      ([textContent "Query executed successfully."],
       [Event.acquire, Event.execute (argQuery args) (argParams args),
        Event.commit, Event.release]) := by
  simp only [execute_query, argQuery, argParams] at *
  rw [hc, hx, hs, hm]
  simp

/-- C2: a statement is treated as row-producing (rows fetched and serialized)
exactly when its whitespace-trimmed text begins with the case-insensitive
token `SELECT`; every other statement is effect-only and triggers a commit
after successful execution. -/
theorem c2_select_classification (db : DB) (args : Arguments)
    (hc : db.connect = Except.ok ())
    (hx : db.exec (argQuery args) (argParams args) = Except.ok ())
    (hm : db.commit = Except.ok ()) :
    (Event.fetch ∈ (execute_query db args).2 ↔
      pyStartswith (pyUpper (pyStrip (argQuery args))) "SELECT" = true) ∧
    (Event.commit ∈ (execute_query db args).2 ↔
      pyStartswith (pyUpper (pyStrip (argQuery args))) "SELECT" = false) ∧
    (∀ rows, db.fetchall (argQuery args) = Except.ok rows →
      pyStartswith (pyUpper (pyStrip (argQuery args))) "SELECT" = true →
      ∃ s, (execute_query db args).1 =
        [textContent ("Query executed successfully.\nResults:\n" ++ s)]) := by
  cases hs : isSelectQuery (argQuery args) with
  | false =>
    rw [execute_query_effect_ok db args hc hx hs hm]
    simp only [isSelectQuery] at hs
    refine ⟨by simp [hs], by simp [hs], ?_⟩
    intro rows _ htrue
    rw [htrue] at hs
    cases hs
  | true =>
    have hs2 := hs
    simp only [isSelectQuery] at hs2
    cases hf : db.fetchall (argQuery args) with
    | error e =>
      rw [execute_query_fetch_err db args e hc hx hs hf]
      refine ⟨by simp [hs2], by simp [hs2], ?_⟩
      intro rows hrows
      simp [hf] at hrows
    | ok rows =>
      rw [execute_query_select_ok db args rows hc hx hs hf]
      refine ⟨by simp [hs2], by simp [hs2], ?_⟩
      intro rows2 _ _
      exact ⟨_, rfl⟩

/-- C2 witness: the classification evaluated on a concrete mixed-case,
whitespace-prefixed `select`. -/
theorem c2_witness :
    (Event.fetch ∈ (execute_query dbOk [("query", Arg.str "  sElEcT 1")]).2 ↔
      pyStartswith (pyUpper (pyStrip (argQuery [("query", Arg.str "  sElEcT 1")]))) "SELECT" = true) ∧
    (Event.commit ∈ (execute_query dbOk [("query", Arg.str "  sElEcT 1")]).2 ↔
      pyStartswith (pyUpper (pyStrip (argQuery [("query", Arg.str "  sElEcT 1")]))) "SELECT" = false) ∧
    (∀ rows, dbOk.fetchall (argQuery [("query", Arg.str "  sElEcT 1")]) = Except.ok rows →
      pyStartswith (pyUpper (pyStrip (argQuery [("query", Arg.str "  sElEcT 1")]))) "SELECT" = true →
      ∃ s, (execute_query dbOk [("query", Arg.str "  sElEcT 1")]).1 =
        [textContent ("Query executed successfully.\nResults:\n" ++ s)]) :=
  c2_select_classification dbOk [("query", Arg.str "  sElEcT 1")] rfl rfl rfl

lemma get_tables_conn_err (db : DB) (e : String)
    (hc : db.connect = Except.error e) :
    get_tables db = ([textContent ("Failed to get tables: " ++ e)], []) := by
  simp only [get_tables]
  rw [hc]

lemma get_tables_exec_err (db : DB) (e : String)
    (hc : db.connect = Except.ok ())
    (hx : db.exec getTablesQuery [] = Except.error e) :
    get_tables db =
      ([textContent ("Failed to get tables: " ++ e)],
       [Event.acquire, Event.execute getTablesQuery [], Event.release]) := by
  simp only [get_tables]
  rw [hc, hx]

lemma get_tables_fetch_err (db : DB) (e : String)
    (hc : db.connect = Except.ok ())
    (hx : db.exec getTablesQuery [] = Except.ok ())
    (hf : db.fetchall getTablesQuery = Except.error e) :
    get_tables db =
      ([textContent ("Failed to get tables: " ++ e)],
       [Event.acquire, Event.execute getTablesQuery [], Event.fetch, Event.release]) := by
  simp only [get_tables]
  rw [hc, hx, hf]

lemma get_tables_rows_err (db : DB) (e : String) (rows : List (List PyVal))
    (hc : db.connect = Except.ok ())
    (hx : db.exec getTablesQuery [] = Except.ok ())
    (hf : db.fetchall getTablesQuery = Except.ok rows)
    (hr : rows.mapM (fun row => pyIndex row 0) = Except.error e) :
    get_tables db =
      ([textContent ("Failed to get tables: " ++ e)],
       [Event.acquire, Event.execute getTablesQuery [], Event.fetch, Event.release]) := by
  simp only [get_tables]
  rw [hc, hx, hf]
  simp only []
  rw [hr]

lemma get_tables_ok (db : DB) (rows : List (List PyVal)) (tables : List PyVal)
    (hc : db.connect = Except.ok ())
    (hx : db.exec getTablesQuery [] = Except.ok ())
    (hf : db.fetchall getTablesQuery = Except.ok rows)
    (hr : rows.mapM (fun row => pyIndex row 0) = Except.ok tables) :
    get_tables db =
      ([textContent ("Tables in database:\n" ++
          jDump 0 (JVal.jarr (tables.map pyValToJ)))],
       [Event.acquire, Event.execute getTablesQuery [], Event.fetch, Event.release]) := by
  simp only [get_tables]
  rw [hc, hx, hf]
  simp only []
  rw [hr]

lemma get_table_schema_conn_err (db : DB) (args : Arguments) (e : String)
    (hc : db.connect = Except.error e) :
    get_table_schema db args = ([textContent ("Failed to get schema: " ++ e)], []) := by
  simp only [get_table_schema, argTableName]
  rw [hc]

lemma get_table_schema_exec_err (db : DB) (args : Arguments) (e : String)
    (hc : db.connect = Except.ok ())
    (hx : db.exec getTableSchemaQuery [PyVal.str (argTableName args)] = Except.error e) :
    get_table_schema db args =
      ([textContent ("Failed to get schema: " ++ e)],
       [Event.acquire, Event.execute getTableSchemaQuery [PyVal.str (argTableName args)],
        Event.release]) := by
  simp only [get_table_schema, argTableName] at *
  rw [hc, hx]

lemma get_table_schema_fetch_err (db : DB) (args : Arguments) (e : String)
    (hc : db.connect = Except.ok ())
    (hx : db.exec getTableSchemaQuery [PyVal.str (argTableName args)] = Except.ok ())
    (hf : db.fetchall getTableSchemaQuery = Except.error e) :
    get_table_schema db args =
      ([textContent ("Failed to get schema: " ++ e)],
       [Event.acquire, Event.execute getTableSchemaQuery [PyVal.str (argTableName args)],
        Event.fetch, Event.release]) := by
  simp only [get_table_schema, argTableName] at *
  rw [hc, hx, hf]

lemma get_table_schema_rows_err (db : DB) (args : Arguments) (e : String)
    (rows : List (List PyVal))
    (hc : db.connect = Except.ok ())
    (hx : db.exec getTableSchemaQuery [PyVal.str (argTableName args)] = Except.ok ())
    (hf : db.fetchall getTableSchemaQuery = Except.ok rows)
    (hr : rows.mapM schemaRowToObj = Except.error e) :
    get_table_schema db args =
      ([textContent ("Failed to get schema: " ++ e)],
       [Event.acquire, Event.execute getTableSchemaQuery [PyVal.str (argTableName args)],
        Event.fetch, Event.release]) := by
  simp only [get_table_schema, argTableName] at *
  rw [hc, hx, hf]
  simp only []
  rw [hr]

lemma get_table_schema_ok (db : DB) (args : Arguments) (rows : List (List PyVal))
    (objs : List (List (String × JVal)))
    (hc : db.connect = Except.ok ())
    (hx : db.exec getTableSchemaQuery [PyVal.str (argTableName args)] = Except.ok ())
    (hf : db.fetchall getTableSchemaQuery = Except.ok rows)
    (hr : rows.mapM schemaRowToObj = Except.ok objs) :
    get_table_schema db args =
      ([textContent ("Schema for table \x27" ++ argTableName args ++ "\x27:\n" ++
          jDump 0 (JVal.jarr (objs.map JVal.jobj)))],
       [Event.acquire, Event.execute getTableSchemaQuery [PyVal.str (argTableName args)],
        Event.fetch, Event.release]) := by
  simp only [get_table_schema, argTableName] at *
  rw [hc, hx, hf]
  simp only []
  rw [hr]

lemma create_table_conn_err (db : DB) (args : Arguments) (e : String)
    (hc : db.connect = Except.error e) :
    create_table db args = ([textContent ("Failed to create table: " ++ e)], []) := by
  simp only [create_table]
  rw [hc]

lemma create_table_exec_err (db : DB) (args : Arguments) (e : String)
    (hc : db.connect = Except.ok ())
    (hx : db.exec (createTableQuery (argTableName args) (argColumnsStr args)) [] =
      Except.error e) :
    create_table db args =
      ([textContent ("Failed to create table: " ++ e)],
       [Event.acquire,
        Event.execute (createTableQuery (argTableName args) (argColumnsStr args)) [],
        Event.release]) := by
  simp only [create_table, argTableName, argColumnsStr] at *
  rw [hc, hx]

lemma create_table_commit_err (db : DB) (args : Arguments) (e : String)
    (hc : db.connect = Except.ok ())
    (hx : db.exec (createTableQuery (argTableName args) (argColumnsStr args)) [] =
      Except.ok ())
    (hm : db.commit = Except.error e) :
    create_table db args =
      ([textContent ("Failed to create table: " ++ e)],
       [Event.acquire,
        Event.execute (createTableQuery (argTableName args) (argColumnsStr args)) [],
        Event.release]) := by
  simp only [create_table, argTableName, argColumnsStr] at *
  rw [hc, hx, hm]

lemma create_table_ok (db : DB) (args : Arguments)
    (hc : db.connect = Except.ok ())
    (hx : db.exec (createTableQuery (argTableName args) (argColumnsStr args)) [] =
      Except.ok ())
    (hm : db.commit = Except.ok ()) :
    create_table db args =
      ([textContent ("Table \x27" ++ argTableName args ++ "\x27 created successfully.")],
       [Event.acquire,
        Event.execute (createTableQuery (argTableName args) (argColumnsStr args)) [],
        Event.commit, Event.release]) := by
  simp only [create_table, argTableName, argColumnsStr] at *
  rw [hc, hx, hm]

lemma insert_data_conn_err (db : DB) (args : Arguments) (e : String)
    (hc : db.connect = Except.error e) :
    insert_data db args = ([textContent ("Failed to insert data: " ++ e)], []) := by
  simp only [insert_data]
  rw [hc]

lemma insert_data_exec_err (db : DB) (args : Arguments) (e : String)
    (hc : db.connect = Except.ok ())
    (hx : db.exec (insertQuery (argTableName args) (argColumnsList args) (argValues args))
      ((argValues args).map PyVal.str) = Except.error e) :
    insert_data db args =
      ([textContent ("Failed to insert data: " ++ e)],
       [Event.acquire,
        Event.execute (insertQuery (argTableName args) (argColumnsList args) (argValues args))
          ((argValues args).map PyVal.str),
        Event.release]) := by
  simp only [insert_data, argTableName, argColumnsList, argValues] at *
  rw [hc, hx]

lemma insert_data_commit_err (db : DB) (args : Arguments) (e : String)
    (hc : db.connect = Except.ok ())
    (hx : db.exec (insertQuery (argTableName args) (argColumnsList args) (argValues args))
      ((argValues args).map PyVal.str) = Except.ok ())
    (hm : db.commit = Except.error e) :
    insert_data db args =
      ([textContent ("Failed to insert data: " ++ e)],
       [Event.acquire,
        Event.execute (insertQuery (argTableName args) (argColumnsList args) (argValues args))
          ((argValues args).map PyVal.str),
        Event.release]) := by
  simp only [insert_data, argTableName, argColumnsList, argValues] at *
  rw [hc, hx, hm]

lemma insert_data_ok (db : DB) (args : Arguments)
    (hc : db.connect = Except.ok ())
    (hx : db.exec (insertQuery (argTableName args) (argColumnsList args) (argValues args))
      ((argValues args).map PyVal.str) = Except.ok ())
    (hm : db.commit = Except.ok ()) :
    insert_data db args =
      ([textContent ("Data inserted into \x27" ++ argTableName args ++ "\x27 successfully.")],
       [Event.acquire,
        Event.execute (insertQuery (argTableName args) (argColumnsList args) (argValues args))
          ((argValues args).map PyVal.str),
        Event.commit, Event.release]) := by
  simp only [insert_data, argTableName, argColumnsList, argValues] at *
  rw [hc, hx, hm]

/-- C1: the source enforces no length check for `insert_data`.  With two
column names and one value the handler assembles the mismatched statement
`INSERT INTO t (a, b) VALUES (?)` (two column names, one placeholder) and
sends it to the database; no `ArgumentError`-class payload is produced — on
an accepting oracle the call even commits and reports success. -/
theorem c1_mismatched_insert_reaches_database :
    insert_data dbOk
        [("table_name", Arg.str "t"), ("columns", Arg.strList ["a", "b"]),
         ("values", Arg.strList ["1"])] =
      ([textContent "Data inserted into \x27t\x27 successfully."],
       [Event.acquire,
        Event.execute "INSERT INTO t (a, b) VALUES (?)" [PyVal.str "1"],
        Event.commit, Event.release]) ∧
    ("INSERT INTO t (a, b) VALUES (?)").toList.count '?' = 1 ∧
    (argColumnsList
      [("table_name", Arg.str "t"), ("columns", Arg.strList ["a", "b"]),
       ("values", Arg.strList ["1"])]).length = 2 :=
  ⟨rfl, by decide, rfl⟩

/-- C4: every effect-only statement whose execution succeeds is committed
before the success response is returned, for the non-SELECT `execute_query`
path, `create_table` and `insert_data`; and when the commit itself fails no
success response is produced. -/
theorem c4_commit_before_success (db : DB) (args : Arguments)
    (hc : db.connect = Except.ok ()) :
    (db.exec (argQuery args) (argParams args) = Except.ok () →
     isSelectQuery (argQuery args) = false →
     db.commit = Except.ok () →
     execute_query db args =
       ([textContent "Query executed successfully."],
        [Event.acquire, Event.execute (argQuery args) (argParams args),
         Event.commit, Event.release])) ∧
    (∀ e, db.exec (argQuery args) (argParams args) = Except.ok () →
     isSelectQuery (argQuery args) = false →
     db.commit = Except.error e →
     execute_query db args =
       ([textContent ("Query execution failed: " ++ e)],
        [Event.acquire, Event.execute (argQuery args) (argParams args), Event.release])) ∧
    (db.exec (createTableQuery (argTableName args) (argColumnsStr args)) [] = Except.ok () →
     db.commit = Except.ok () →
     create_table db args =
       ([textContent ("Table \x27" ++ argTableName args ++ "\x27 created successfully.")],
        [Event.acquire,
         Event.execute (createTableQuery (argTableName args) (argColumnsStr args)) [],
         Event.commit, Event.release])) ∧
    (∀ e, db.exec (createTableQuery (argTableName args) (argColumnsStr args)) [] = Except.ok () →
     db.commit = Except.error e →
     create_table db args =
       ([textContent ("Failed to create table: " ++ e)],
        [Event.acquire,
         Event.execute (createTableQuery (argTableName args) (argColumnsStr args)) [],
         Event.release])) ∧
    (db.exec (insertQuery (argTableName args) (argColumnsList args) (argValues args))
        ((argValues args).map PyVal.str) = Except.ok () →
     db.commit = Except.ok () →
     insert_data db args =
       ([textContent ("Data inserted into \x27" ++ argTableName args ++ "\x27 successfully.")],
        [Event.acquire,
         Event.execute (insertQuery (argTableName args) (argColumnsList args) (argValues args))
           ((argValues args).map PyVal.str),
         Event.commit, Event.release])) ∧
    (∀ e, db.exec (insertQuery (argTableName args) (argColumnsList args) (argValues args))
        ((argValues args).map PyVal.str) = Except.ok () →
     db.commit = Except.error e →
     insert_data db args =
       ([textContent ("Failed to insert data: " ++ e)],
        [Event.acquire,
         Event.execute (insertQuery (argTableName args) (argColumnsList args) (argValues args))
           ((argValues args).map PyVal.str),
         Event.release])) :=
  ⟨fun hx hs hm => execute_query_effect_ok db args hc hx hs hm,
   fun e hx hs hm => execute_query_commit_err db args e hc hx hs hm,
   fun hx hm => create_table_ok db args hc hx hm,
   fun e hx hm => create_table_commit_err db args e hc hx hm,
   fun hx hm => insert_data_ok db args hc hx hm,
   fun e hx hm => insert_data_commit_err db args e hc hx hm⟩

/-- C4 witness: a concrete committed insert. -/
theorem c4_witness :
    insert_data dbOk
        [("table_name", Arg.str "t"), ("columns", Arg.strList ["a"]),
         ("values", Arg.strList ["1"])] =
      ([textContent ("Data inserted into \x27" ++
          argTableName [("table_name", Arg.str "t"), ("columns", Arg.strList ["a"]),
            ("values", Arg.strList ["1"])] ++ "\x27 successfully.")],
       [Event.acquire,
        Event.execute
          (insertQuery
            (argTableName [("table_name", Arg.str "t"), ("columns", Arg.strList ["a"]),
              ("values", Arg.strList ["1"])])
            (argColumnsList [("table_name", Arg.str "t"), ("columns", Arg.strList ["a"]),
              ("values", Arg.strList ["1"])])
            (argValues [("table_name", Arg.str "t"), ("columns", Arg.strList ["a"]),
              ("values", Arg.strList ["1"])]))
          ((argValues [("table_name", Arg.str "t"), ("columns", Arg.strList ["a"]),
            ("values", Arg.strList ["1"])]).map PyVal.str),
        Event.commit, Event.release]) :=
  (c4_commit_before_success dbOk
    [("table_name", Arg.str "t"), ("columns", Arg.strList ["a"]),
     ("values", Arg.strList ["1"])] rfl).2.2.2.2.1 rfl rfl

/-- C8: the source does not reject a missing required argument.  With the
required `query` of `execute_query` absent the handler substitutes the
default `""` and sends the empty statement to the database; with the
required `columns`/`values` of `insert_data` absent it substitutes `[]` and
sends `INSERT INTO t () VALUES ()`.  No `ArgumentError` is ever raised. -/
theorem c8_missing_required_argument_uses_default :
    handle_call_tool dbOk "execute_query" (some []) =
      ([textContent "Query executed successfully."],
       [Event.acquire, Event.execute "" [], Event.commit, Event.release]) ∧
    handle_call_tool dbOk "insert_data" (some [("table_name", Arg.str "t")]) =
      ([textContent "Data inserted into \x27t\x27 successfully."],
       [Event.acquire, Event.execute "INSERT INTO t () VALUES ()" [],
        Event.commit, Event.release]) :=
  ⟨rfl, rfl⟩

/-- C9: a `get_table_schema` call whose catalog query runs without error and
matches zero rows yields the success-shaped payload
`Schema for table '<name>':` followed by the empty JSON array, not a
failure payload. -/
theorem c9_schema_of_unknown_table_is_success (db : DB) (args : Arguments)
    (hc : db.connect = Except.ok ())
    (hx : db.exec getTableSchemaQuery [PyVal.str (argTableName args)] = Except.ok ())
    (hf : db.fetchall getTableSchemaQuery = Except.ok []) :
    get_table_schema db args =
      ([textContent ("Schema for table \x27" ++ argTableName args ++ "\x27:\n[]")],
       [Event.acquire, Event.execute getTableSchemaQuery [PyVal.str (argTableName args)],
        Event.fetch, Event.release]) := by
  rw [get_table_schema_ok db args [] [] hc hx hf rfl]
  simp [String.append_assoc, jDump]

/-- C9 witness: a concrete empty-catalog lookup. -/
theorem c9_witness :
    get_table_schema dbOk [("table_name", Arg.str "no_such_table")] =
      ([textContent ("Schema for table \x27" ++
          argTableName [("table_name", Arg.str "no_such_table")] ++ "\x27:\n[]")],
       [Event.acquire,
        Event.execute getTableSchemaQuery
          [PyVal.str (argTableName [("table_name", Arg.str "no_such_table")])],
        Event.fetch, Event.release]) :=
  c9_schema_of_unknown_table_is_success dbOk [("table_name", Arg.str "no_such_table")]
    rfl rfl rfl

lemma execute_query_len (db : DB) (args : Arguments) :
    (execute_query db args).1.length = 1 := by
  cases hc : db.connect with
  | error e => simp [execute_query_conn_err db args e hc]
  | ok u =>
    cases u
    cases hx : db.exec (argQuery args) (argParams args) with
    | error e => simp [execute_query_exec_err db args e hc hx]
    | ok v =>
      cases v
      cases hs : isSelectQuery (argQuery args) with
      | true =>
        cases hf : db.fetchall (argQuery args) with
        | error e => simp [execute_query_fetch_err db args e hc hx hs hf]
        | ok rows => simp [execute_query_select_ok db args rows hc hx hs hf]
      | false =>
        cases hm : db.commit with
        | error e => simp [execute_query_commit_err db args e hc hx hs hm]
        | ok w =>
          cases w
          simp [execute_query_effect_ok db args hc hx hs hm]

lemma execute_query_shape (db : DB) (args : Arguments)
    (hc : db.connect = Except.ok ()) :
    WellBracketed (execute_query db args).2 := by
  cases hx : db.exec (argQuery args) (argParams args) with
  | error e =>
    rw [execute_query_exec_err db args e hc hx]
    exact ⟨rfl, rfl, rfl, rfl⟩
  | ok v =>
    cases v
    cases hs : isSelectQuery (argQuery args) with
    | true =>
      cases hf : db.fetchall (argQuery args) with
      | error e =>
        rw [execute_query_fetch_err db args e hc hx hs hf]
        exact ⟨rfl, rfl, rfl, rfl⟩
      | ok rows =>
        rw [execute_query_select_ok db args rows hc hx hs hf]
        exact ⟨rfl, rfl, rfl, rfl⟩
    | false =>
      cases hm : db.commit with
      | error e =>
        rw [execute_query_commit_err db args e hc hx hs hm]
        exact ⟨rfl, rfl, rfl, rfl⟩
      | ok w =>
        cases w
        rw [execute_query_effect_ok db args hc hx hs hm]
        exact ⟨rfl, rfl, rfl, rfl⟩

lemma get_tables_len (db : DB) : (get_tables db).1.length = 1 := by
  cases hc : db.connect with
  | error e => simp [get_tables_conn_err db e hc]
  | ok u =>
    cases u
    cases hx : db.exec getTablesQuery [] with
    | error e => simp [get_tables_exec_err db e hc hx]
    | ok v =>
      cases v
      cases hf : db.fetchall getTablesQuery with
      | error e => simp [get_tables_fetch_err db e hc hx hf]
      | ok rows =>
        cases hr : rows.mapM (fun row => pyIndex row 0) with
        | error e => simp [get_tables_rows_err db e rows hc hx hf hr]
        | ok tables => simp [get_tables_ok db rows tables hc hx hf hr]

lemma get_tables_shape (db : DB) (hc : db.connect = Except.ok ()) :
    WellBracketed (get_tables db).2 := by
  cases hx : db.exec getTablesQuery [] with
  | error e =>
    rw [get_tables_exec_err db e hc hx]
    exact ⟨rfl, rfl, rfl, rfl⟩
  | ok v =>
    cases v
    cases hf : db.fetchall getTablesQuery with
    | error e =>
      rw [get_tables_fetch_err db e hc hx hf]
      exact ⟨rfl, rfl, rfl, rfl⟩
    | ok rows =>
      cases hr : rows.mapM (fun row => pyIndex row 0) with
      | error e =>
        rw [get_tables_rows_err db e rows hc hx hf hr]
        exact ⟨rfl, rfl, rfl, rfl⟩
      | ok tables =>
        rw [get_tables_ok db rows tables hc hx hf hr]
        exact ⟨rfl, rfl, rfl, rfl⟩

lemma get_table_schema_len (db : DB) (args : Arguments) :
    (get_table_schema db args).1.length = 1 := by
  cases hc : db.connect with
  | error e => simp [get_table_schema_conn_err db args e hc]
  | ok u =>
    cases u
    cases hx : db.exec getTableSchemaQuery [PyVal.str (argTableName args)] with
    | error e => simp [get_table_schema_exec_err db args e hc hx]
    | ok v =>
      cases v
      cases hf : db.fetchall getTableSchemaQuery with
      | error e => simp [get_table_schema_fetch_err db args e hc hx hf]
      | ok rows =>
        cases hr : rows.mapM schemaRowToObj with
        | error e => simp [get_table_schema_rows_err db args e rows hc hx hf hr]
        | ok objs => simp [get_table_schema_ok db args rows objs hc hx hf hr]

lemma get_table_schema_shape (db : DB) (args : Arguments)
    (hc : db.connect = Except.ok ()) :
    WellBracketed (get_table_schema db args).2 := by
  cases hx : db.exec getTableSchemaQuery [PyVal.str (argTableName args)] with
  | error e =>
    rw [get_table_schema_exec_err db args e hc hx]
    exact ⟨rfl, rfl, rfl, rfl⟩
  | ok v =>
    cases v
    cases hf : db.fetchall getTableSchemaQuery with
    | error e =>
      rw [get_table_schema_fetch_err db args e hc hx hf]
      exact ⟨rfl, rfl, rfl, rfl⟩
    | ok rows =>
      cases hr : rows.mapM schemaRowToObj with
      | error e =>
        rw [get_table_schema_rows_err db args e rows hc hx hf hr]
        exact ⟨rfl, rfl, rfl, rfl⟩
      | ok objs =>
        rw [get_table_schema_ok db args rows objs hc hx hf hr]
        exact ⟨rfl, rfl, rfl, rfl⟩

lemma create_table_len (db : DB) (args : Arguments) :
    (create_table db args).1.length = 1 := by
  cases hc : db.connect with
  | error e => simp [create_table_conn_err db args e hc]
  | ok u =>
    cases u
    cases hx : db.exec (createTableQuery (argTableName args) (argColumnsStr args)) [] with
    | error e => simp [create_table_exec_err db args e hc hx]
    | ok v =>
      cases v
      cases hm : db.commit with
      | error e => simp [create_table_commit_err db args e hc hx hm]
      | ok w =>
        cases w
        simp [create_table_ok db args hc hx hm]

lemma create_table_shape (db : DB) (args : Arguments)
    (hc : db.connect = Except.ok ()) :
    WellBracketed (create_table db args).2 := by
  cases hx : db.exec (createTableQuery (argTableName args) (argColumnsStr args)) [] with
  | error e =>
    rw [create_table_exec_err db args e hc hx]
    exact ⟨rfl, rfl, rfl, rfl⟩
  | ok v =>
    cases v
    cases hm : db.commit with
    | error e =>
      rw [create_table_commit_err db args e hc hx hm]
      exact ⟨rfl, rfl, rfl, rfl⟩
    | ok w =>
      cases w
      rw [create_table_ok db args hc hx hm]
      exact ⟨rfl, rfl, rfl, rfl⟩

lemma insert_data_len (db : DB) (args : Arguments) :
    (insert_data db args).1.length = 1 := by
  cases hc : db.connect with
  | error e => simp [insert_data_conn_err db args e hc]
  | ok u =>
    cases u
    cases hx : db.exec (insertQuery (argTableName args) (argColumnsList args) (argValues args))
        ((argValues args).map PyVal.str) with
    | error e => simp [insert_data_exec_err db args e hc hx]
    | ok v =>
      cases v
      cases hm : db.commit with
      | error e => simp [insert_data_commit_err db args e hc hx hm]
      | ok w =>
        cases w
        simp [insert_data_ok db args hc hx hm]

lemma insert_data_shape (db : DB) (args : Arguments)
    (hc : db.connect = Except.ok ()) :
    WellBracketed (insert_data db args).2 := by
  cases hx : db.exec (insertQuery (argTableName args) (argColumnsList args) (argValues args))
      ((argValues args).map PyVal.str) with
  | error e =>
    rw [insert_data_exec_err db args e hc hx]
    exact ⟨rfl, rfl, rfl, rfl⟩
  | ok v =>
    cases v
    cases hm : db.commit with
    | error e =>
      rw [insert_data_commit_err db args e hc hx hm]
      exact ⟨rfl, rfl, rfl, rfl⟩
    | ok w =>
      cases w
      rw [insert_data_ok db args hc hx hm]
      exact ⟨rfl, rfl, rfl, rfl⟩

lemma handle_eq_execute_query (db : DB) (args : Option Arguments) :
    handle_call_tool db "execute_query" args = execute_query db (args.getD []) := rfl

lemma handle_eq_get_tables (db : DB) (args : Option Arguments) :
    handle_call_tool db "get_tables" args = get_tables db := rfl

lemma handle_eq_get_table_schema (db : DB) (args : Option Arguments) :
    handle_call_tool db "get_table_schema" args = get_table_schema db (args.getD []) := rfl

lemma handle_eq_create_table (db : DB) (args : Option Arguments) :
    handle_call_tool db "create_table" args = create_table db (args.getD []) := rfl

lemma handle_eq_insert_data (db : DB) (args : Option Arguments) :
    handle_call_tool db "insert_data" args = insert_data db (args.getD []) := rfl

lemma handle_unknown (db : DB) (name : String) (args : Option Arguments)
    (h1 : name ≠ "execute_query") (h2 : name ≠ "get_tables")
    (h3 : name ≠ "get_table_schema") (h4 : name ≠ "create_table")
    (h5 : name ≠ "insert_data") :
    handle_call_tool db name args = ([textContent ("Unknown tool: " ++ name)], []) := by
  simp [handle_call_tool, dispatchTry, h1, h2, h3, h4, h5]

lemma handle_len (db : DB) (name : String) (args : Option Arguments) :
    (handle_call_tool db name args).1.length = 1 := by
  by_cases h1 : name = "execute_query"
  · subst h1
    rw [handle_eq_execute_query]
    exact execute_query_len db _
  by_cases h2 : name = "get_tables"
  · subst h2
    rw [handle_eq_get_tables]
    exact get_tables_len db
  by_cases h3 : name = "get_table_schema"
  · subst h3
    rw [handle_eq_get_table_schema]
    exact get_table_schema_len db _
  by_cases h4 : name = "create_table"
  · subst h4
    rw [handle_eq_create_table]
    exact create_table_len db _
  by_cases h5 : name = "insert_data"
  · subst h5
    rw [handle_eq_insert_data]
    exact insert_data_len db _
  rw [handle_unknown db name args h1 h2 h3 h4 h5]
  rfl

/-- C3: dispatch never lets an exception escape — every call gets a response;
an unknown tool name yields exactly `Unknown tool: <name>`; the `except`
branch converts a raised exception into the `Error: <msg>` payload; and a
failure raised at the connection stage of any of the five tools is caught
and converted into a failure payload carrying the exception's message. -/
theorem c3_dispatch_never_raises (db : DB) (name : String) (args : Option Arguments) :
    (handle_call_tool db name args).1.length = 1 ∧
    (name ∉ toolNames →
      handle_call_tool db name args = ([textContent ("Unknown tool: " ++ name)], [])) ∧
    (∀ e, dispatchExcept e = ([textContent ("Error: " ++ e)], [])) ∧
    (∀ e, db.connect = Except.error e → name ∈ toolNames →
      (handle_call_tool db name args).1 = [textContent (toolErrorText name ++ e)]) := by
  refine ⟨handle_len db name args, ?_, fun e => rfl, ?_⟩
  · intro hmem
    simp only [toolNames, List.mem_cons, List.mem_singleton, List.not_mem_nil] at hmem
    push_neg at hmem
    obtain ⟨h1, h2, h3, h4, h5⟩ := hmem
    exact handle_unknown db name args h1 h2 h3 h4 (by simpa using h5)
  · intro e hc hmem
    simp only [toolNames, List.mem_cons, List.mem_singleton, List.not_mem_nil,
      or_false] at hmem
    rcases hmem with h | h | h | h | h <;> subst h
    · rw [handle_eq_execute_query, execute_query_conn_err db _ e hc]
      rfl
    · rw [handle_eq_get_tables, get_tables_conn_err db e hc]
      rfl
    · rw [handle_eq_get_table_schema, get_table_schema_conn_err db _ e hc]
      rfl
    · rw [handle_eq_create_table, create_table_conn_err db _ e hc]
      rfl
    · rw [handle_eq_insert_data, insert_data_conn_err db _ e hc]
      rfl

/-- C3 witness: an unknown tool and a rejected connection evaluated. -/
theorem c3_witness :
    (handle_call_tool dbConnFail "bogus" (some [])).1.length = 1 ∧
    handle_call_tool dbConnFail "bogus" (some []) =
      ([textContent "Unknown tool: bogus"], []) ∧
    (handle_call_tool dbConnFail "get_tables" Option.none).1 =
      [textContent (toolErrorText "get_tables" ++ "Login failed for user")] :=
  ⟨(c3_dispatch_never_raises dbConnFail "bogus" (some [])).1,
   (c3_dispatch_never_raises dbConnFail "bogus" (some [])).2.1 (by decide),
   (c3_dispatch_never_raises dbConnFail "get_tables" Option.none).2.2.2
     "Login failed for user" rfl (by decide)⟩

/-- C5: per dispatched tool call, no connection event occurs when the
handshake fails or the tool is unknown; and whenever the handshake succeeds
on a known tool, exactly one connection is acquired, the trace starts with
the acquisition, and exactly one scope-exit release ends the trace — on
every exit path. -/
theorem c5_one_connection_per_call (db : DB) (name : String) (args : Option Arguments) :
    (∀ e, db.connect = Except.error e → (handle_call_tool db name args).2 = []) ∧
    (name ∉ toolNames → (handle_call_tool db name args).2 = []) ∧
    (db.connect = Except.ok () → name ∈ toolNames →
      WellBracketed (handle_call_tool db name args).2) := by
  refine ⟨?_, ?_, ?_⟩
  · intro e hc
    by_cases h1 : name = "execute_query"
    · subst h1
      rw [handle_eq_execute_query, execute_query_conn_err db _ e hc]
    by_cases h2 : name = "get_tables"
    · subst h2
      rw [handle_eq_get_tables, get_tables_conn_err db e hc]
    by_cases h3 : name = "get_table_schema"
    · subst h3
      rw [handle_eq_get_table_schema, get_table_schema_conn_err db _ e hc]
    by_cases h4 : name = "create_table"
    · subst h4
      rw [handle_eq_create_table, create_table_conn_err db _ e hc]
    by_cases h5 : name = "insert_data"
    · subst h5
      rw [handle_eq_insert_data, insert_data_conn_err db _ e hc]
    rw [handle_unknown db name args h1 h2 h3 h4 h5]
  · intro hmem
    simp only [toolNames, List.mem_cons, List.mem_singleton, List.not_mem_nil] at hmem
    push_neg at hmem
    obtain ⟨h1, h2, h3, h4, h5⟩ := hmem
    rw [handle_unknown db name args h1 h2 h3 h4 (by simpa using h5)]
  · intro hc hmem
    simp only [toolNames, List.mem_cons, List.mem_singleton, List.not_mem_nil,
      or_false] at hmem
    rcases hmem with h | h | h | h | h <;> subst h
    · rw [handle_eq_execute_query]
      exact execute_query_shape db _ hc
    · rw [handle_eq_get_tables]
      exact get_tables_shape db hc
    · rw [handle_eq_get_table_schema]
      exact get_table_schema_shape db _ hc
    · rw [handle_eq_create_table]
      exact create_table_shape db _ hc
    · rw [handle_eq_insert_data]
      exact insert_data_shape db _ hc

/-- C5 witness: the bracket facts evaluated on a concrete call. -/
theorem c5_witness :
    WellBracketed (handle_call_tool dbOk "get_tables" Option.none).2 :=
  (c5_one_connection_per_call dbOk "get_tables" Option.none).2.2 rfl (by decide)

/-- C7: every tool call produces exactly one text content block, and a
driver failure at statement execution is reported only inside the payload
text with the per-tool prefix (shown for the two prefixes the spec cites:
`Query execution failed: ` and `Failed to get schema: `). -/
theorem c7_single_block_and_error_texts (db : DB) (name : String) (args : Option Arguments) :
    (handle_call_tool db name args).1.length = 1 ∧
    (∀ e, db.connect = Except.ok () →
      db.exec (argQuery (args.getD [])) (argParams (args.getD [])) = Except.error e →
      (handle_call_tool db "execute_query" args).1 =
        [textContent ("Query execution failed: " ++ e)]) ∧
    (∀ e, db.connect = Except.ok () →
      db.exec getTableSchemaQuery [PyVal.str (argTableName (args.getD []))] = Except.error e →
      (handle_call_tool db "get_table_schema" args).1 =
        [textContent ("Failed to get schema: " ++ e)]) := by
  refine ⟨handle_len db name args, ?_, ?_⟩
  · intro e hc hx
    rw [handle_eq_execute_query, execute_query_exec_err db _ e hc hx]
  · intro e hc hx
    rw [handle_eq_get_table_schema, get_table_schema_exec_err db _ e hc hx]

/-- C7 witness: a concrete failing execution, reported in the payload. -/
theorem c7_witness :
    (handle_call_tool dbExecFail "execute_query" (some [("query", Arg.str "SELECT 1")])).1.length = 1 ∧
    (handle_call_tool dbExecFail "execute_query" (some [("query", Arg.str "SELECT 1")])).1 =
      [textContent ("Query execution failed: " ++ "Invalid object name")] :=
  ⟨(c7_single_block_and_error_texts dbExecFail "execute_query"
      (some [("query", Arg.str "SELECT 1")])).1,
   (c7_single_block_and_error_texts dbExecFail "execute_query"
      (some [("query", Arg.str "SELECT 1")])).2.1 "Invalid object name" rfl rfl⟩

lemma buildConnectionString_ne_empty (s d u p : String) :
    buildConnectionString s d u p ≠ "" := by
  intro h
  have hl := congrArg String.length h
  simp only [buildConnectionString, String.length_append, String.length_empty] at hl
  have hA : 0 < ("SERVER=" : String).length := by decide
  omega

/-- C6: connector construction fails at startup with the configuration
error whenever any of the four settings is absent or empty; when all four
are present and non-empty, construction succeeds and the per-call
configuration guard of `get_connection` never fires. -/
theorem c6_configuration_fail_fast (env : Env) :
    ((env.server = Option.none ∨ env.server = some "" ∨
      env.database = Option.none ∨ env.database = some "" ∨
      env.username = Option.none ∨ env.username = some "" ∨
      env.password = Option.none ∨ env.password = some "") →
      connector_init env =
        Except.error "Missing required environment variables for Azure SQL connection") ∧
    (∀ s d u p, env.server = some s → env.database = some d → env.username = some u →
      env.password = some p → s ≠ "" → d ≠ "" → u ≠ "" → p ≠ "" →
      connector_init env = Except.ok ⟨some (buildConnectionString s d u p)⟩ ∧
      ∀ r, get_connection ⟨some (buildConnectionString s d u p)⟩ r = r) := by
  constructor
  · intro h
    have hcond : (envTruthy env.server && envTruthy env.database &&
        envTruthy env.username && envTruthy env.password) = false := by
      rcases h with h | h | h | h | h | h | h | h <;> simp [envTruthy, h]
    simp [connector_init, setup_connection, hcond]
  · intro s d u p hs hd hu hp hs' hd' hu' hp'
    have hne := buildConnectionString_ne_empty s d u p
    refine ⟨?_, ?_⟩
    · simp [connector_init, setup_connection, envTruthy, hs, hd, hu, hp,
        hs', hd', hu', hp']
    · intro r
      simp [get_connection, connectionStringMissing, hne]

/-- C6 witness: a fully configured environment constructs and its
per-call guard passes. -/
theorem c6_witness :
    connector_init envW =
      Except.ok ⟨some (buildConnectionString "srv.database.windows.net" "db" "user" "pw")⟩ ∧
    ∀ r, get_connection
      ⟨some (buildConnectionString "srv.database.windows.net" "db" "user" "pw")⟩ r = r :=
  (c6_configuration_fail_fast envW).2 "srv.database.windows.net" "db" "user" "pw"
    rfl rfl rfl rfl (by decide) (by decide) (by decide) (by decide)

/-- C10: whenever construction returns, the `connection_string` field holds
a non-`None` (and non-empty) string, so the `Connection string not
configured` branch of `get_connection` is unreachable on that instance. -/
theorem c10_connection_string_always_configured (env : Env) (c : AzureSQLConnector)
    (h : connector_init env = Except.ok c) :
    c.connection_string ≠ Option.none ∧
    connectionStringMissing c = false ∧
    ∀ r, get_connection c r = r := by
  have hcs : ∃ s d u p, c = ⟨some (buildConnectionString s d u p)⟩ := by
    unfold connector_init at h
    cases hs : setup_connection env with
    | error e =>
      rw [hs] at h
      cases h
    | ok cs =>
      rw [hs] at h
      injection h with h'
      subst h'
      unfold setup_connection at hs
      split at hs
      · split at hs
        · injection hs with h2
          subst h2
          exact ⟨_, _, _, _, rfl⟩
        · cases hs
      · cases hs
  obtain ⟨s, d, u, p, rfl⟩ := hcs
  have hne := buildConnectionString_ne_empty s d u p
  refine ⟨by simp, ?_, ?_⟩
  · simp [connectionStringMissing, hne]
  · intro r
    simp [get_connection, connectionStringMissing, hne]

/-- C10 witness: the guard evaluated on a concretely constructed
connector. -/
theorem c10_witness :
    (AzureSQLConnector.mk
      (some (buildConnectionString "srv.database.windows.net" "db" "user" "pw"))).connection_string ≠
        Option.none ∧
    connectionStringMissing
      ⟨some (buildConnectionString "srv.database.windows.net" "db" "user" "pw")⟩ = false ∧
    ∀ r, get_connection
      ⟨some (buildConnectionString "srv.database.windows.net" "db" "user" "pw")⟩ r = r :=
  c10_connection_string_always_configured envW
    ⟨some (buildConnectionString "srv.database.windows.net" "db" "user" "pw")⟩ rfl

end AzureSqlMcp
